import Mathlib

/-!
Shallow embedding of the ScanCode JSON results parser
(parse_scancode_results.py): data model, finding extraction, issue
scanning, license tally, problem classification, report rendering and
detailed export, followed by theorems settling the specification claims.
Scores are embedded as integers; Python dictionaries and Counter objects
are embedded as insertion-ordered association lists; Python sets of
tuples are embedded as insertion-ordered duplicate-free lists.
-/

namespace ScanCode

/-- One entry of the nested `matches` list of a license detection;
`score` is absent when the `score` key is missing. -/
structure MatchEntry where
  score : Option Int
deriving DecidableEq

/-- One object of the `license_detections` list of a file record. -/
structure Detection where
  license_expression : Option String
  license_expression_spdx : Option String
  «matches» : List MatchEntry
deriving DecidableEq

/-- One object of the legacy `licenses` list of a file record. -/
structure LegacyLicense where
  key : Option String
  name : Option String
  score : Option Int
deriving DecidableEq

/-- One element of the `files` list of the input document.  A missing
`scan_errors`, `license_detections` or `licenses` key and a present key
holding an empty list have the same behaviour in the program, so both are
embedded as the empty list. -/
structure FileRecord where
  path : Option String
  scan_errors : List String
  detected_license_expression : Option String
  license_detections : List Detection
  licenses : List LegacyLicense
deriving DecidableEq

/-- The parsed input document; `files` is `none` when the `files` key is
missing. -/
structure ScanDoc where
  files : Option (List FileRecord)
deriving DecidableEq

/-- A normalized license finding, as the dictionaries built by
`extract_licenses_from_file`. -/
structure LicenseFinding where
  key : String
  name : String
  score : Int
deriving DecidableEq

/-- Python `a or b` on strings: the first operand when it is truthy
(non-empty), otherwise the second. -/
def pyOr (a : Option String) (b : String) : String :=
  match a with
  | some s => if s = "" then b else s
  | none => b

/-- Python `s.lower()` on the ASCII license keys, as a character map. -/
def strLower (s : String) : String :=
  String.mk (s.data.map Char.toLower)

/-- Python `s.upper()` on the ASCII category names, as a character
map. -/
def strUpper (s : String) : String :=
  String.mk (s.data.map Char.toUpper)

/-- Python substring test `pat in hay` on strings. -/
def containsSub (hay pat : String) : Bool :=
  decide (pat.data <:+: hay.data)

/-- `lic.get('license_expression') or lic.get('license_expression_spdx')
or 'unknown'` for a detection object. -/
def detectionKey (d : Detection) : String :=
  pyOr d.license_expression (pyOr d.license_expression_spdx "unknown")

/-- `m.get('score', 100)` for a match entry. -/
def matchScore (m : MatchEntry) : Int :=
  m.score.getD 100

/-- Score of a detection: 100 when `matches` is empty (or missing),
otherwise `max([m.get('score', 100) for m in lic['matches']])`. -/
def detectionScore (d : Detection) : Int :=
  match d.«matches» with
  | [] => 100
  | m :: ms => (ms.map matchScore).foldl max (matchScore m)

/-- Findings contributed by the `detected_license_expression` string:
one finding with score 100 when the string is present and non-empty. -/
def exprFindings (f : FileRecord) : List LicenseFinding :=
  match f.detected_license_expression with
  | some e => if e = "" then [] else [⟨e, e, 100⟩]
  | none => []

/-- Findings contributed by the `license_detections` list: one finding
per detection object. -/
def detectionFindings (f : FileRecord) : List LicenseFinding :=
  f.license_detections.map (fun d => ⟨detectionKey d, detectionKey d, detectionScore d⟩)

/-- Findings contributed by the legacy `licenses` list: one finding per
license object, name defaulting to the key and score to 100. -/
def legacyFindings (f : FileRecord) : List LicenseFinding :=
  f.licenses.map (fun l =>
    let key := l.key.getD "unknown"
    ⟨key, l.name.getD key, l.score.getD 100⟩)

/-- `ScanCodeAnalyzer.extract_licenses_from_file`: the findings of the
three shapes appended in source order. -/
def extract_licenses_from_file (f : FileRecord) : List LicenseFinding :=
  exprFindings f ++ detectionFindings f ++ legacyFindings f

/-- `file_info.get('path', 'Unknown')`. -/
def filePath (f : FileRecord) : String :=
  f.path.getD "Unknown"

/-- Payload of the `details` field of an issue: a raw scan-error list or
a formatted message string. -/
inductive IssueDetails where
  | scanErrs (errs : List String)
  | text (s : String)
deriving DecidableEq

/-- One entry of the issue list built by `get_files_with_issues`. -/
structure Issue where
  file : String
  type : String
  details : IssueDetails
deriving DecidableEq

/-- The low-confidence issue built for a finding of a file. -/
def mkLowIssue (f : FileRecord) (lic : LicenseFinding) : Issue :=
  ⟨filePath f, "low_confidence_license",
    .text ("License: " ++ lic.key ++ ", Score: " ++ toString lic.score)⟩

/-- Issues contributed by one file record: a scan-error issue when
`scan_errors` is truthy, then one low-confidence issue per finding with
score below 50. -/
def fileIssues (f : FileRecord) : List Issue :=
  (if f.scan_errors = [] then [] else [⟨filePath f, "scan_error", .scanErrs f.scan_errors⟩]) ++
  (extract_licenses_from_file f).filterMap (fun lic =>
    if lic.score < 50 then some (mkLowIssue f lic) else none)

/-- `ScanCodeAnalyzer.get_files_with_issues`. -/
def get_files_with_issues (doc : ScanDoc) : List Issue :=
  match doc.files with
  | none => []
  | some fs => fs.flatMap fileIssues

/-- One tally occurrence: the dictionaries appended to
`license_stats[key]` by `_process_license_detection`. -/
structure Occ where
  file : String
  name : String
  score : Int
deriving DecidableEq

/-- Append an occurrence under a key in the insertion-ordered embedding
of the `license_stats` defaultdict. -/
def statsAdd (st : List (String × List Occ)) (k : String) (o : Occ) :
    List (String × List Occ) :=
  match st with
  | [] => [(k, [o])]
  | (k1, os) :: rest =>
    if k1 = k then (k1, os ++ [o]) :: rest else (k1, os) :: statsAdd rest k o

/-- Increment a key in the insertion-ordered embedding of the
`all_licenses` Counter. -/
def counterAdd (c : List (String × Nat)) (k : String) : List (String × Nat) :=
  match c with
  | [] => [(k, 1)]
  | (k1, n) :: rest =>
    if k1 = k then (k1, n + 1) :: rest else (k1, n) :: counterAdd rest k

/-- `ScanCodeAnalyzer.analyze_licenses`: the per-key occurrence lists and
the frequency counter, both in first-occurrence key order. -/
def analyze_licenses (doc : ScanDoc) : List (String × List Occ) × List (String × Nat) :=
  match doc.files with
  | none => ([], [])
  | some fs =>
    fs.foldl (fun acc f =>
      (extract_licenses_from_file f).foldl (fun acc2 lic =>
        (statsAdd acc2.1 lic.key ⟨filePath f, lic.name, lic.score⟩,
         counterAdd acc2.2 lic.key)) acc) ([], [])

/-- The class constant `GPL_2_0`. -/
def GPL_2_0 : String := "gpl-2.0"

/-- The class constant `GPL_3_0`. -/
def GPL_3_0 : String := "gpl-3.0"

/-- The class constant `AGPL_3_0`. -/
def AGPL_3_0 : String := "agpl-3.0"

/-- The class constant `GPL_2_0_PLUS`. -/
def GPL_2_0_PLUS : String := "gpl-2.0-plus"

/-- The class constant `GPL_3_0_PLUS`. -/
def GPL_3_0_PLUS : String := "gpl-3.0-plus"

/-- The class constant `LGPL_2_1`. -/
def LGPL_2_1 : String := "lgpl-2.1"

/-- The class constant `LGPL_3_0`. -/
def LGPL_3_0 : String := "lgpl-3.0"

/-- The class constant `CC_BY_SA_4_0`. -/
def CC_BY_SA_4_0 : String := "cc-by-sa-4.0"

/-- Fragment list of the `gpl` category. -/
def gplList : List String := [GPL_2_0, GPL_3_0, GPL_2_0_PLUS, GPL_3_0_PLUS]

/-- Fragment list of the `agpl` category. -/
def agplList : List String := [AGPL_3_0, GPL_3_0_PLUS]

/-- Fragment list of the `copyleft` category. -/
def copyleftList : List String := [GPL_2_0, GPL_3_0, LGPL_2_1, LGPL_3_0, AGPL_3_0]

/-- Fragment list of the `commercial_unfriendly` category. -/
def commercialUnfriendlyList : List String := [GPL_2_0, GPL_3_0, AGPL_3_0, CC_BY_SA_4_0]

/-- Fragment list of the `unknown` category. -/
def unknownList : List String :=
  ["unknown", "other-permissive", "other-copyleft", "unknown-license-reference"]

/-- The `self.problematic_licenses` dictionary, in its insertion order. -/
def problematic_licenses : List (String × List String) :=
  [("gpl", gplList), ("agpl", agplList), ("copyleft", copyleftList),
   ("commercial_unfriendly", commercialUnfriendlyList), ("unknown", unknownList)]

/-- The `self.permissive_licenses` list. -/
def permissive_licenses : List String :=
  ["mit", "apache-2.0", "bsd-2-clause", "bsd-3-clause", "isc",
   "cc0-1.0", "unlicense", "wtfpl", "boost-1.0"]

/-- `any(problem_license in license_key.lower() for problem_license in
license_list)`. -/
def fragmentsHit (frags : List String) (licenseKey : String) : Bool :=
  frags.any (fun frag => containsSub (strLower licenseKey) frag)

/-- A `(file_path, license_key, score)` tuple stored in a problem set. -/
abbrev Triple := String × String × Int

/-- Insertion into the list embedding of a Python set of tuples: no
change when the element is present, append otherwise. -/
def setInsert (s : List Triple) (t : Triple) : List Triple :=
  if t ∈ s then s else s ++ [t]

/-- The six problem sets keyed by the fixed category names, in the key
order of the `problems` dictionary of `identify_problematic_licenses`. -/
structure ProblemSets where
  copyleft : List Triple
  gpl : List Triple
  agpl : List Triple
  commercial_unfriendly : List Triple
  unknown : List Triple
  low_confidence : List Triple
deriving DecidableEq

/-- The initial empty problem sets. -/
def initProblemSets : ProblemSets := ⟨[], [], [], [], [], []⟩

/-- `ScanCodeAnalyzer._add_to_problem_sets`, with the loop over the
five-entry `problematic_licenses` dictionary unrolled in its insertion
order, followed by the unconditional low-confidence check. -/
def _add_to_problem_sets (ps : ProblemSets) (license_key file_path : String)
    (score : Int) : ProblemSets :=
  let t : Triple := (file_path, license_key, score)
  let ps1 := if fragmentsHit gplList license_key then
    { ps with gpl := setInsert ps.gpl t } else ps
  let ps2 := if fragmentsHit agplList license_key then
    { ps1 with agpl := setInsert ps1.agpl t } else ps1
  let ps3 := if fragmentsHit copyleftList license_key then
    { ps2 with copyleft := setInsert ps2.copyleft t } else ps2
  let ps4 := if fragmentsHit commercialUnfriendlyList license_key then
    { ps3 with commercial_unfriendly := setInsert ps3.commercial_unfriendly t } else ps3
  let ps5 := if fragmentsHit unknownList license_key then
    { ps4 with unknown := setInsert ps4.unknown t } else ps4
  if score < 70 then
    { ps5 with low_confidence := setInsert ps5.low_confidence t } else ps5

/-- The six converted problem lists, as the `problems` dictionary
returned by `_convert_problem_sets_to_list`. -/
structure Problems where
  copyleft : List Occ
  gpl : List Occ
  agpl : List Occ
  commercial_unfriendly : List Occ
  unknown : List Occ
  low_confidence : List Occ
deriving DecidableEq

/-- Conversion of one stored tuple into the exported dictionary: the
name field reuses the license key. -/
def tripleToOcc (t : Triple) : Occ :=
  ⟨t.1, t.2.1, t.2.2⟩

/-- `ScanCodeAnalyzer._convert_problem_sets_to_list`. -/
def _convert_problem_sets_to_list (ps : ProblemSets) : Problems :=
  ⟨ps.copyleft.map tripleToOcc, ps.gpl.map tripleToOcc, ps.agpl.map tripleToOcc,
   ps.commercial_unfriendly.map tripleToOcc, ps.unknown.map tripleToOcc,
   ps.low_confidence.map tripleToOcc⟩

/-- `ScanCodeAnalyzer.identify_problematic_licenses`. -/
def identify_problematic_licenses (license_stats : List (String × List Occ)) : Problems :=
  _convert_problem_sets_to_list
    (license_stats.foldl (fun ps kv =>
      kv.2.foldl (fun ps2 d => _add_to_problem_sets ps2 kv.1 d.file d.score) ps)
      initProblemSets)

/-- The `problems` dictionary as the association list over which the
report iterates, in its fixed key order. -/
def problemsList (p : Problems) : List (String × List Occ) :=
  [("copyleft", p.copyleft), ("gpl", p.gpl), ("agpl", p.agpl),
   ("commercial_unfriendly", p.commercial_unfriendly), ("unknown", p.unknown),
   ("low_confidence", p.low_confidence)]

/-- `sum(len(v) for v in problems.values())`. -/
def totalIssues (p : Problems) : Nat :=
  p.copyleft.length + p.gpl.length + p.agpl.length +
    p.commercial_unfriendly.length + p.unknown.length + p.low_confidence.length

/-- The line of 80 equal signs. -/
def eq80 : String := String.mk (List.replicate 80 '=')

/-- The line of 40 dashes. -/
def dash40 : String := String.mk (List.replicate 40 '-')

/-- Left-justified padding to a width, as a Python `{value:n}` format of
a string. -/
def padRight (s : String) (n : Nat) : String :=
  s ++ String.mk (List.replicate (n - s.length) ' ')

/-- Right-justified padding to a width, as a Python `{value:n}` format
of an integer already rendered. -/
def padLeft (s : String) (n : Nat) : String :=
  String.mk (List.replicate (n - s.length) ' ') ++ s

/-- A single quote character, for the Python repr of a string. -/
def singleQuote : String := String.singleton (Char.ofNat 39)

/-- Python `str` of a list of strings, as interpolated into the
scan-error detail line. -/
def pyListRepr (l : List String) : String :=
  "[" ++ String.intercalate ", " (l.map (fun s => singleQuote ++ s ++ singleQuote)) ++ "]"

/-- Stable insertion into a count-descending list, matching the stable
descending sort used by `Counter.most_common`. -/
def insertDesc (x : String × Nat) : List (String × Nat) → List (String × Nat)
  | [] => [x]
  | y :: ys => if y.2 < x.2 then x :: y :: ys else y :: insertDesc x ys

/-- `Counter.most_common(n)`: the first `n` entries of the stable sort
of the counter by descending count. -/
def mostCommon (c : List (String × Nat)) (n : Nat) : List (String × Nat) :=
  (c.foldl (fun acc x => insertDesc x acc) []).take n

/-- `ScanCodeAnalyzer._print_report_header`, as the printed lines. -/
def _print_report_header (now jsonFile : String) : List String :=
  [eq80, "🔍 SCANCODE LICENSE ANALYSIS REPORT", eq80,
   "📁 Analyzed file: " ++ jsonFile, "📅 Generated on: " ++ now, ""]

/-- `ScanCodeAnalyzer._print_basic_statistics`, as the printed lines. -/
def _print_basic_statistics (doc : ScanDoc) (issues : List Issue) : List String :=
  ["📊 BASIC STATISTICS",
   "   Total files scanned: " ++ toString (doc.files.getD []).length] ++
  (if issues = [] then [] else
    ["   Files with scan errors: " ++
       toString (issues.filter (fun i => i.type == "scan_error")).length,
     "   Files with low confidence licenses: " ++
       toString (issues.filter (fun i => i.type == "low_confidence_license")).length]) ++
  [""]

/-- `ScanCodeAnalyzer._print_license_summary`, as the printed lines. -/
def _print_license_summary (all_licenses : List (String × Nat)) : List String :=
  ["📋 LICENSE SUMMARY",
   "   Unique licenses detected: " ++ toString all_licenses.length,
   "   Total license detections: " ++ toString ((all_licenses.map Prod.snd).foldl Nat.add 0),
   "", "🏆 TOP 10 MOST COMMON LICENSES"] ++
  (mostCommon all_licenses 10).map (fun kv =>
    "   " ++ padRight kv.1 30 ++ " : " ++ padLeft (toString kv.2) 4 ++ " files") ++
  [""]

/-- Uppercasing and underscore replacement applied to a category name in
the problem listing header. -/
def catDisplay (cat : String) : String :=
  String.mk ((strUpper cat).data.map (fun c => if c = '_' then ' ' else c))

/-- The lines printed for one non-empty problem category: a blank line
and a header from the leading formatted newline, up to five example
pairs of lines, and a truncation note when more than five entries
exist. -/
def categoryBlock (cat : String) (issue_list : List Occ) : List String :=
  if issue_list = [] then [] else
    ["", "   🚨 " ++ catDisplay cat ++ " LICENSES (" ++ toString issue_list.length ++ " files):"] ++
    (issue_list.take 5).flatMap (fun issue =>
      ["      - " ++ issue.file,
       "        License: " ++ issue.name ++ " (Score: " ++ toString issue.score ++ ")"]) ++
    (if 5 < issue_list.length then
      ["      ... and " ++ toString (issue_list.length - 5) ++ " more files"] else [])

/-- `ScanCodeAnalyzer._print_potential_issues`, as the printed lines. -/
def _print_potential_issues (problems : Problems) : List String :=
  ["⚠️  POTENTIAL LICENSE ISSUES", dash40] ++
  (if totalIssues problems = 0 then ["   ✅ No major license issues detected!"]
   else (problemsList problems).flatMap (fun kv => categoryBlock kv.1 kv.2)) ++
  [""]

/-- `ScanCodeAnalyzer._print_scan_errors`, as the printed lines. -/
def _print_scan_errors (issues : List Issue) : List String :=
  ((issues.filter (fun i => i.type == "scan_error")).take 10).flatMap (fun e =>
    ["   " ++ e.file,
     "   Error: " ++ (match e.details with
       | .scanErrs errs => pyListRepr errs
       | .text s => s), ""])

/-- The header lines of `_print_scan_errors`, present only when at least
one scan-error issue exists. -/
def _print_scan_errors_full (issues : List Issue) : List String :=
  if (issues.filter (fun i => i.type == "scan_error")) = [] then []
  else ["❌ FILES WITH SCAN ERRORS", dash40] ++ _print_scan_errors issues

/-- `ScanCodeAnalyzer._print_recommendations`, as the printed lines. -/
def _print_recommendations (problems : Problems) : List String :=
  ["💡 RECOMMENDATIONS", dash40] ++
  (if problems.gpl.length = 0 then [] else
    ["   🔴 " ++ toString problems.gpl.length ++ " files with GPL licenses detected",
     "      - Review if GPL compatibility is acceptable for your project",
     "      - Consider alternative implementations for critical files"]) ++
  (if problems.agpl.length = 0 then [] else
    ["   🔴 " ++ toString problems.agpl.length ++ " files with AGPL licenses detected",
     "      - AGPL has network copyleft requirements",
     "      - Avoid AGPL code in web services/SaaS applications"]) ++
  (if problems.unknown.length = 0 then [] else
    ["   🟡 " ++ toString problems.unknown.length ++ " files with unknown/unclear licenses",
     "      - Manual review required for these files",
     "      - Contact original authors for clarification"]) ++
  (if problems.low_confidence.length = 0 then [] else
    ["   🟡 " ++ toString problems.low_confidence.length ++
       " files with low confidence license detection",
     "      - Manual verification recommended",
     "      - Check original source for accurate license information"]) ++
  ["", eq80]

/-- The diagnostic line printed by `get_files_with_issues` when the
document lacks a `files` section. -/
def get_files_with_issues_lines (doc : ScanDoc) : List String :=
  match doc.files with
  | none => ["❌ No " ++ singleQuote ++ "files" ++ singleQuote ++ " section found in JSON"]
  | some _ => []

/-- `ScanCodeAnalyzer.generate_report`, as the printed lines. -/
def generate_report_lines (now jsonFile : String) (doc : ScanDoc) : List String :=
  _print_report_header now jsonFile ++
  get_files_with_issues_lines doc ++
  _print_basic_statistics doc (get_files_with_issues doc) ++
  _print_license_summary (analyze_licenses doc).2 ++
  _print_potential_issues (identify_problematic_licenses (analyze_licenses doc).1) ++
  _print_scan_errors_full (get_files_with_issues doc) ++
  _print_recommendations (identify_problematic_licenses (analyze_licenses doc).1)

/-- One entry of the exported recommendations array. -/
structure Recommendation where
  severity : String
  category : String
  message : String
  affected_files : Nat
deriving DecidableEq

/-- `ScanCodeAnalyzer.generate_recommendations`. -/
def generate_recommendations (problems : Problems) : List Recommendation :=
  (if problems.gpl = [] then [] else
    [⟨"high", "gpl",
      "GPL licenses detected. Review compatibility with your project license.",
      problems.gpl.length⟩]) ++
  (if problems.agpl = [] then [] else
    [⟨"critical", "agpl",
      "AGPL licenses detected. Network copyleft requirements apply.",
      problems.agpl.length⟩]) ++
  (if problems.unknown = [] then [] else
    [⟨"medium", "unknown",
      "Unknown licenses detected. Manual review required.",
      problems.unknown.length⟩])

/-- The `metadata` section of the detailed report. -/
structure Metadata where
  source_file : String
  analysis_date : String
  total_files : Nat
  total_licenses : Nat
  total_license_detections : Nat
deriving DecidableEq

/-- The detailed report dictionary written by `export_detailed_report`. -/
structure DetailedReport where
  metadata : Metadata
  license_statistics : List (String × Nat)
  problematic_licenses : Problems
  scan_issues : List Issue
  recommendations : List Recommendation
deriving DecidableEq

/-- `ScanCodeAnalyzer.export_detailed_report`: the report value as a
function of the generation timestamp, the source filename and the parsed
document. -/
def export_detailed_report (now jsonFile : String) (doc : ScanDoc) : DetailedReport :=
  let all_licenses := (analyze_licenses doc).2
  let problems := identify_problematic_licenses (analyze_licenses doc).1
  let issues := get_files_with_issues doc
  ⟨⟨jsonFile, now, (doc.files.getD []).length, all_licenses.length,
    (all_licenses.map Prod.snd).foldl Nat.add 0⟩,
   all_licenses, problems, issues, generate_recommendations problems⟩

/-- `_convert_problem_sets_to_list` under an explicit per-run
set-iteration order: CPython enumerates a set of string-carrying tuples
in an order that depends on the per-process randomized hash seed, so a
run iterates each problem set in some order that is a permutation of the
stored elements; the function argument stands for the enumeration of
that run. -/
def _convert_problem_sets_to_list_ord (ord : List Triple → List Triple)
    (ps : ProblemSets) : Problems :=
  ⟨(ord ps.copyleft).map tripleToOcc, (ord ps.gpl).map tripleToOcc,
   (ord ps.agpl).map tripleToOcc, (ord ps.commercial_unfriendly).map tripleToOcc,
   (ord ps.unknown).map tripleToOcc, (ord ps.low_confidence).map tripleToOcc⟩

/-- `identify_problematic_licenses` under an explicit per-run
set-iteration order. -/
def identify_problematic_licenses_ord (ord : List Triple → List Triple)
    (license_stats : List (String × List Occ)) : Problems :=
  _convert_problem_sets_to_list_ord ord
    (license_stats.foldl (fun ps kv =>
      kv.2.foldl (fun ps2 d => _add_to_problem_sets ps2 kv.1 d.file d.score) ps)
      initProblemSets)

/-- `export_detailed_report` under an explicit per-run set-iteration
order; the fixed-order `export_detailed_report` is the instance at the
identity order. -/
def export_detailed_report_ord (ord : List Triple → List Triple)
    (now jsonFile : String) (doc : ScanDoc) : DetailedReport :=
  let all_licenses := (analyze_licenses doc).2
  let problems := identify_problematic_licenses_ord ord (analyze_licenses doc).1
  let issues := get_files_with_issues doc
  ⟨⟨jsonFile, now, (doc.files.getD []).length, all_licenses.length,
    (all_licenses.map Prod.snd).foldl Nat.add 0⟩,
   all_licenses, problems, issues, generate_recommendations problems⟩

/-- Componentwise permutation of the six problem-category lists. -/
def problemsPerm (p q : Problems) : Prop :=
  p.copyleft.Perm q.copyleft ∧ p.gpl.Perm q.gpl ∧ p.agpl.Perm q.agpl ∧
    p.commercial_unfriendly.Perm q.commercial_unfriendly ∧
    p.unknown.Perm q.unknown ∧ p.low_confidence.Perm q.low_confidence

/-- A document with two files carrying two distinct gpl license
expressions, so the gpl problem set holds two tuples. -/
def docTwoGpl : ScanDoc :=
  ⟨some [⟨some "a.c", [], some "gpl-2.0", [], []⟩,
         ⟨some "b.c", [], some "gpl-3.0", [], []⟩]⟩

/-- Outcome of one program run: the exit status, the printed lines, and
the name of the output file written, when one was written. -/
structure MainResult where
  exitCode : Nat
  stdout : List String
  wrote : Option String
deriving DecidableEq

/-- `main`, over an abstract filesystem: whether the input path exists,
and the parse outcome of its content when it does. -/
def mainRun (argv : List String) (fsExists : Bool) (parsed : Except String ScanDoc)
    (now : String) : MainResult :=
  match argv with
  | [_prog, json_file] =>
    if fsExists then
      match parsed with
      | .error e => ⟨1, ["❌ Error parsing JSON: " ++ e], none⟩
      | .ok doc =>
        ⟨0, ["✅ Successfully loaded " ++ json_file] ++
            generate_report_lines now json_file doc ++
            get_files_with_issues_lines doc ++
            ["📄 Detailed report exported to: license_analysis_detailed.json"],
         some "license_analysis_detailed.json"⟩
    else ⟨1, ["❌ Error: File " ++ json_file ++ " does not exist"], none⟩
  | _ =>
    ⟨1, ["Usage: python parse_scancode_results.py <scancode_results.json>",
         "", "Example:",
         "python parse_scancode_results.py hwid_go_server_analysis.json"], none⟩

/-! ### Helper lemmas -/

theorem mem_setInsert {a t : Triple} {s : List Triple} :
    a ∈ setInsert s t ↔ a ∈ s ∨ a = t := by
  unfold setInsert
  split_ifs with h
  · constructor
    · exact Or.inl
    · rintro (h1 | rfl)
      · exact h1
      · exact h
  · simp [List.mem_append]

theorem add_proj_gpl (ps : ProblemSets) (k f : String) (s : Int) :
    (_add_to_problem_sets ps k f s).gpl =
      if fragmentsHit gplList k then setInsert ps.gpl (f, k, s) else ps.gpl := by
  simp only [_add_to_problem_sets]
  split_ifs <;> rfl

theorem add_proj_agpl (ps : ProblemSets) (k f : String) (s : Int) :
    (_add_to_problem_sets ps k f s).agpl =
      if fragmentsHit agplList k then setInsert ps.agpl (f, k, s) else ps.agpl := by
  simp only [_add_to_problem_sets]
  split_ifs <;> rfl

theorem add_proj_copyleft (ps : ProblemSets) (k f : String) (s : Int) :
    (_add_to_problem_sets ps k f s).copyleft =
      if fragmentsHit copyleftList k then setInsert ps.copyleft (f, k, s) else ps.copyleft := by
  simp only [_add_to_problem_sets]
  split_ifs <;> rfl

theorem add_proj_commercial (ps : ProblemSets) (k f : String) (s : Int) :
    (_add_to_problem_sets ps k f s).commercial_unfriendly =
      if fragmentsHit commercialUnfriendlyList k then
        setInsert ps.commercial_unfriendly (f, k, s) else ps.commercial_unfriendly := by
  simp only [_add_to_problem_sets]
  split_ifs <;> rfl

theorem add_proj_unknown (ps : ProblemSets) (k f : String) (s : Int) :
    (_add_to_problem_sets ps k f s).unknown =
      if fragmentsHit unknownList k then setInsert ps.unknown (f, k, s) else ps.unknown := by
  simp only [_add_to_problem_sets]
  split_ifs <;> rfl

theorem add_proj_low_confidence (ps : ProblemSets) (k f : String) (s : Int) :
    (_add_to_problem_sets ps k f s).low_confidence =
      if s < 70 then setInsert ps.low_confidence (f, k, s) else ps.low_confidence := by
  simp only [_add_to_problem_sets]
  split_ifs <;> rfl

theorem add_mem_gpl (ps : ProblemSets) (k f : String) (s : Int) :
    (f, k, s) ∈ (_add_to_problem_sets ps k f s).gpl ↔
      fragmentsHit gplList k = true ∨ (f, k, s) ∈ ps.gpl := by
  rw [add_proj_gpl]
  split_ifs with h <;> simp [mem_setInsert, h]

theorem add_mem_agpl (ps : ProblemSets) (k f : String) (s : Int) :
    (f, k, s) ∈ (_add_to_problem_sets ps k f s).agpl ↔
      fragmentsHit agplList k = true ∨ (f, k, s) ∈ ps.agpl := by
  rw [add_proj_agpl]
  split_ifs with h <;> simp [mem_setInsert, h]

theorem add_mem_copyleft (ps : ProblemSets) (k f : String) (s : Int) :
    (f, k, s) ∈ (_add_to_problem_sets ps k f s).copyleft ↔
      fragmentsHit copyleftList k = true ∨ (f, k, s) ∈ ps.copyleft := by
  rw [add_proj_copyleft]
  split_ifs with h <;> simp [mem_setInsert, h]

theorem add_mem_commercial (ps : ProblemSets) (k f : String) (s : Int) :
    (f, k, s) ∈ (_add_to_problem_sets ps k f s).commercial_unfriendly ↔
      fragmentsHit commercialUnfriendlyList k = true ∨
        (f, k, s) ∈ ps.commercial_unfriendly := by
  rw [add_proj_commercial]
  split_ifs with h <;> simp [mem_setInsert, h]

theorem add_mem_unknown (ps : ProblemSets) (k f : String) (s : Int) :
    (f, k, s) ∈ (_add_to_problem_sets ps k f s).unknown ↔
      fragmentsHit unknownList k = true ∨ (f, k, s) ∈ ps.unknown := by
  rw [add_proj_unknown]
  split_ifs with h <;> simp [mem_setInsert, h]

theorem add_mem_low_confidence (ps : ProblemSets) (k f : String) (s : Int) :
    (f, k, s) ∈ (_add_to_problem_sets ps k f s).low_confidence ↔
      s < 70 ∨ (f, k, s) ∈ ps.low_confidence := by
  rw [add_proj_low_confidence]
  split_ifs with h <;> simp [mem_setInsert, h]

/-- Lookup of a category by name in the problem sets, following the key
order of the `problems` dictionary. -/
def psGet (ps : ProblemSets) (cat : String) : List Triple :=
  if cat = "copyleft" then ps.copyleft
  else if cat = "gpl" then ps.gpl
  else if cat = "agpl" then ps.agpl
  else if cat = "commercial_unfriendly" then ps.commercial_unfriendly
  else if cat = "unknown" then ps.unknown
  else ps.low_confidence

/-! ### Claims C1 and C10 -/

/-- C1 (amended): the classifier adds the `(filePath, licenseKey, score)`
triple to exactly the categories whose static fragment list has some
fragment that is a case-insensitive substring of the key; a key whose
lowercase form contains `gpl-2.0` matches the `gpl` and `copyleft`
fragment lists, and the triple stays out of the `agpl` set provided no
`agpl` fragment occurs in the key. -/
theorem C1_classification (ps : ProblemSets) (k f : String) (s : Int) :
    (∀ cat frags, (cat, frags) ∈ problematic_licenses →
      ((f, k, s) ∈ psGet (_add_to_problem_sets ps k f s) cat ↔
        fragmentsHit frags k = true ∨ (f, k, s) ∈ psGet ps cat))
  ∧ (containsSub (strLower k) "gpl-2.0" = true →
      fragmentsHit gplList k = true ∧ fragmentsHit copyleftList k = true)
  ∧ (fragmentsHit agplList k = false →
      ((f, k, s) ∈ (_add_to_problem_sets ps k f s).agpl ↔ (f, k, s) ∈ ps.agpl)) := by
  refine ⟨?_, ?_, ?_⟩
  · intro cat frags hmem
    simp only [problematic_licenses, List.mem_cons, List.not_mem_nil, or_false,
      Prod.mk.injEq] at hmem
    rcases hmem with ⟨rfl, rfl⟩ | ⟨rfl, rfl⟩ | ⟨rfl, rfl⟩ | ⟨rfl, rfl⟩ | ⟨rfl, rfl⟩
    · exact add_mem_gpl ps k f s
    · exact add_mem_agpl ps k f s
    · exact add_mem_copyleft ps k f s
    · exact add_mem_commercial ps k f s
    · exact add_mem_unknown ps k f s
  · intro h
    constructor
    · exact List.any_eq_true.mpr ⟨GPL_2_0, by decide, h⟩
    · exact List.any_eq_true.mpr ⟨GPL_2_0, by decide, h⟩
  · intro hag
    rw [add_mem_agpl, hag]
    simp

/-- C1 counterexample: a key whose lowercase form contains `gpl-2.0` can
also contain an `agpl` fragment, and its triple is then added to the
`agpl` category set, contrary to the claim. -/
theorem C1_counterexample :
    containsSub (strLower "gpl-2.0 and agpl-3.0") "gpl-2.0" = true ∧
    ("f.c", "gpl-2.0 and agpl-3.0", (100 : Int)) ∈
      (_add_to_problem_sets initProblemSets "gpl-2.0 and agpl-3.0" "f.c" 100).agpl := by
  decide

/-- C1 witness: the amended theorem applied to the key `gpl-2.0`. -/
theorem C1_witness :
    ("a.c", "gpl-2.0", (100 : Int)) ∈
        (_add_to_problem_sets initProblemSets "gpl-2.0" "a.c" 100).gpl
  ∧ ("a.c", "gpl-2.0", (100 : Int)) ∈
        (_add_to_problem_sets initProblemSets "gpl-2.0" "a.c" 100).copyleft
  ∧ ("a.c", "gpl-2.0", (100 : Int)) ∉
        (_add_to_problem_sets initProblemSets "gpl-2.0" "a.c" 100).agpl := by
  have h := C1_classification initProblemSets "gpl-2.0" "a.c" 100
  have hsub : containsSub (strLower "gpl-2.0") "gpl-2.0" = true := by decide
  refine ⟨?_, ?_, ?_⟩
  · exact (h.1 "gpl" gplList (by decide)).mpr (Or.inl (h.2.1 hsub).1)
  · exact (h.1 "copyleft" copyleftList (by decide)).mpr (Or.inl (h.2.1 hsub).2)
  · intro hbad
    have := (h.2.2 (by decide)).mp hbad
    exact (by decide : ("a.c", "gpl-2.0", (100 : Int)) ∉ initProblemSets.agpl) this

/-- C10: every key whose lowercase form contains `agpl-3.0` is classified
into the `agpl`, `copyleft` and `commercial_unfriendly` categories and
also into the `gpl` category, because `gpl-3.0` from the `gpl` fragment
list is a substring of `agpl-3.0`. -/
theorem C10_agpl_inflates_gpl (ps : ProblemSets) (k f : String) (s : Int)
    (h : containsSub (strLower k) "agpl-3.0" = true) :
    (f, k, s) ∈ (_add_to_problem_sets ps k f s).gpl
  ∧ (f, k, s) ∈ (_add_to_problem_sets ps k f s).agpl
  ∧ (f, k, s) ∈ (_add_to_problem_sets ps k f s).copyleft
  ∧ (f, k, s) ∈ (_add_to_problem_sets ps k f s).commercial_unfriendly := by
  have hinf : "agpl-3.0".data <:+: (strLower k).data := of_decide_eq_true h
  have hg : containsSub (strLower k) "gpl-3.0" = true := by
    have h2 : "gpl-3.0".data <:+: "agpl-3.0".data := by decide
    exact decide_eq_true (h2.trans hinf)
  refine ⟨?_, ?_, ?_, ?_⟩
  · exact (add_mem_gpl ps k f s).mpr
      (Or.inl (List.any_eq_true.mpr ⟨GPL_3_0, by decide, hg⟩))
  · exact (add_mem_agpl ps k f s).mpr
      (Or.inl (List.any_eq_true.mpr ⟨AGPL_3_0, by decide, h⟩))
  · exact (add_mem_copyleft ps k f s).mpr
      (Or.inl (List.any_eq_true.mpr ⟨AGPL_3_0, by decide, h⟩))
  · exact (add_mem_commercial ps k f s).mpr
      (Or.inl (List.any_eq_true.mpr ⟨AGPL_3_0, by decide, h⟩))

/-- C10 witness: the theorem applied to the exact key `agpl-3.0`. -/
theorem C10_witness :
    ("s.c", "agpl-3.0", (100 : Int)) ∈
        (_add_to_problem_sets initProblemSets "agpl-3.0" "s.c" 100).gpl
  ∧ ("s.c", "agpl-3.0", (100 : Int)) ∈
        (_add_to_problem_sets initProblemSets "agpl-3.0" "s.c" 100).agpl
  ∧ ("s.c", "agpl-3.0", (100 : Int)) ∈
        (_add_to_problem_sets initProblemSets "agpl-3.0" "s.c" 100).copyleft
  ∧ ("s.c", "agpl-3.0", (100 : Int)) ∈
        (_add_to_problem_sets initProblemSets "agpl-3.0" "s.c" 100).commercial_unfriendly :=
  C10_agpl_inflates_gpl initProblemSets "agpl-3.0" "s.c" 100 (by decide)

/-! ### Claims C2, C3 and C4 -/

theorem mkLowIssue_type (f : FileRecord) (lic : LicenseFinding) :
    (mkLowIssue f lic).type = "low_confidence_license" := rfl

theorem filter_filterMap_low (f : FileRecord) (l : List LicenseFinding) :
    (l.filterMap (fun lic => if lic.score < 50 then some (mkLowIssue f lic) else none)).filter
        (fun i => i.type == "low_confidence_license") =
      (l.filter (fun lic => decide (lic.score < 50))).map (mkLowIssue f) := by
  induction l with
  | nil => rfl
  | cons a t ih =>
    by_cases h : a.score < 50 <;>
      simp [List.filterMap_cons, List.filter_cons, h, mkLowIssue_type, ih]

/-- The single-file document with one legacy `mit` license at score 65. -/
def doc65 : ScanDoc :=
  ⟨some [⟨some "f", [], none, [], [⟨some "mit", none, some 65⟩]⟩]⟩

/-- C2: the issue scanner emits a low-confidence issue exactly for the
findings with score strictly below 50, the classifier adds a triple to
the low-confidence set exactly when the score is strictly below 70
regardless of the key, and the `mit` finding at score 65 lands in the
low-confidence category only and produces no issue. -/
theorem C2_two_thresholds :
    (∀ f : FileRecord,
      (fileIssues f).filter (fun i => i.type == "low_confidence_license") =
        ((extract_licenses_from_file f).filter
          (fun lic => decide (lic.score < 50))).map (mkLowIssue f))
  ∧ (∀ (ps : ProblemSets) (k fp : String) (s : Int),
      ((fp, k, s) ∈ (_add_to_problem_sets ps k fp s).low_confidence ↔
        s < 70 ∨ (fp, k, s) ∈ ps.low_confidence))
  ∧ identify_problematic_licenses (analyze_licenses doc65).1 =
      ⟨[], [], [], [], [], [⟨"f", "mit", 65⟩]⟩
  ∧ get_files_with_issues doc65 = [] := by
  refine ⟨?_, ?_, by decide, by decide⟩
  · intro f
    unfold fileIssues
    rw [List.filter_append, filter_filterMap_low]
    split_ifs with h <;> simp
  · intro ps k fp s
    exact add_mem_low_confidence ps k fp s

/-- The file record with no license fields at all. -/
def emptyRecord : FileRecord := ⟨none, [], none, [], []⟩

/-- C3: the finding extractor returns the concatenation, in fixed order,
of the findings of the three shapes, with no deduplication (the lengths
add up), and a record with none of the three license fields yields the
empty list. -/
theorem C3_extractor_concat (f : FileRecord) :
    extract_licenses_from_file f = exprFindings f ++ detectionFindings f ++ legacyFindings f
  ∧ (extract_licenses_from_file f).length =
      (exprFindings f).length + (detectionFindings f).length + (legacyFindings f).length
  ∧ (f.detected_license_expression = none → f.license_detections = [] → f.licenses = [] →
      extract_licenses_from_file f = []) := by
  refine ⟨rfl,
    by unfold extract_licenses_from_file; rw [List.length_append, List.length_append], ?_⟩
  intro h1 h2 h3
  simp [extract_licenses_from_file, exprFindings, detectionFindings, legacyFindings, h1, h2, h3]

/-- C3 witness: the extractor on the record with no license fields. -/
theorem C3_witness : extract_licenses_from_file emptyRecord = [] :=
  (C3_extractor_concat emptyRecord).2.2 rfl rfl rfl

theorem le_foldl_max (a : Int) (l : List Int) : a ≤ l.foldl max a := by
  induction l generalizing a with
  | nil => exact le_refl a
  | cons b t ih => exact le_trans (le_max_left a b) (ih (max a b))

theorem mem_le_foldl_max (l : List Int) (x : Int) (hx : x ∈ l) (a : Int) :
    x ≤ l.foldl max a := by
  induction l generalizing a with
  | nil => cases hx
  | cons b t ih =>
    rcases List.mem_cons.mp hx with rfl | h
    · exact le_trans (le_max_right a x) (le_foldl_max (max a x) t)
    · exact ih h (max a b)

theorem foldl_max_mem (l : List Int) (a : Int) : l.foldl max a = a ∨ l.foldl max a ∈ l := by
  induction l generalizing a with
  | nil => exact Or.inl rfl
  | cons b t ih =>
    rw [List.foldl_cons]
    rcases ih (max a b) with h | h
    · rcases max_cases a b with ⟨he, _⟩ | ⟨he, _⟩
      · exact Or.inl (h.trans he)
      · exact Or.inr (List.mem_cons.mpr (Or.inl (h.trans he)))
    · exact Or.inr (List.mem_cons.mpr (Or.inr h))

/-- The detection object of the specification example, with match scores
40 and 90. -/
def sampleDetection : Detection := ⟨none, none, [⟨some 40⟩, ⟨some 90⟩]⟩

/-- C4: the score of a detection finding is the maximum of the scores of
its nested match entries, each missing score defaulting to 100, and is
100 when the detection has no matches; the detection findings of a file
carry exactly these scores. -/
theorem C4_detection_score (d : Detection) :
    (d.«matches» = [] → detectionScore d = 100)
  ∧ (∀ m ∈ d.«matches», matchScore m ≤ detectionScore d)
  ∧ (d.«matches» ≠ [] → detectionScore d ∈ d.«matches».map matchScore)
  ∧ matchScore ⟨none⟩ = 100
  ∧ (∀ f : FileRecord, detectionFindings f =
      f.license_detections.map
        (fun dd => ⟨detectionKey dd, detectionKey dd, detectionScore dd⟩)) := by
  refine ⟨?_, ?_, ?_, rfl, fun _ => rfl⟩
  · intro h
    unfold detectionScore
    rw [h]
  · intro m hm
    unfold detectionScore
    rcases hmatch : d.«matches» with _ | ⟨m0, ms⟩
    · rw [hmatch] at hm
      cases hm
    · rw [hmatch] at hm
      rcases List.mem_cons.mp hm with rfl | h
      · exact le_foldl_max (matchScore m) (ms.map matchScore)
      · exact mem_le_foldl_max (ms.map matchScore) (matchScore m)
          (List.mem_map_of_mem matchScore h) (matchScore m0)
  · intro hne
    rcases hmatch : d.«matches» with _ | ⟨m0, ms⟩
    · exact absurd hmatch hne
    · have hds : detectionScore d = List.foldl max (matchScore m0) (ms.map matchScore) := by
        unfold detectionScore
        rw [hmatch]
      rw [hds]
      rcases foldl_max_mem (ms.map matchScore) (matchScore m0) with h | h
      · rw [h, List.map_cons]
        exact List.mem_cons_self _ _
      · rw [List.map_cons]
        exact List.mem_cons_of_mem _ h

/-- C4 witness: the theorem applied to the example detection with match
scores 40 and 90, whose finding score evaluates to 90. -/
theorem C4_witness :
    detectionScore sampleDetection ∈ sampleDetection.«matches».map matchScore
  ∧ detectionScore sampleDetection = 90 :=
  ⟨(C4_detection_score sampleDetection).2.2.1 (by decide), by decide⟩

/-! ### Claims C5, C7, C8 and C9 -/

/-- The fixed-order exporter is the ord-parameterized exporter at the
identity iteration order. -/
theorem export_ord_id (now jsonFile : String) (doc : ScanDoc) :
    export_detailed_report_ord (fun x => x) now jsonFile doc =
      export_detailed_report now jsonFile doc := rfl

/-- C5 (amended): across two runs with arbitrary, possibly different,
set-iteration orders and timestamps, the exported `license_statistics`
sections are byte-identical and the `problematic_licenses` sections hold
the same entries per category up to entry order; for a fixed iteration
order the `problematic_licenses` section is independent of the
timestamp, so it is byte-identical exactly between runs sharing the
per-process set-iteration order. -/
theorem C5_sections_cross_run (ord1 ord2 : List Triple → List Triple)
    (h1 : ∀ l, (ord1 l).Perm l) (h2 : ∀ l, (ord2 l).Perm l)
    (now1 now2 jsonFile : String) (doc : ScanDoc) :
    (export_detailed_report_ord ord1 now1 jsonFile doc).license_statistics =
      (export_detailed_report_ord ord2 now2 jsonFile doc).license_statistics
  ∧ problemsPerm (export_detailed_report_ord ord1 now1 jsonFile doc).problematic_licenses
      (export_detailed_report_ord ord2 now2 jsonFile doc).problematic_licenses
  ∧ (export_detailed_report_ord ord1 now1 jsonFile doc).problematic_licenses =
      (export_detailed_report_ord ord1 now2 jsonFile doc).problematic_licenses := by
  refine ⟨rfl, ⟨?_, ?_, ?_, ?_, ?_, ?_⟩, rfl⟩ <;>
    exact ((h1 _).map tripleToOcc).trans (((h2 _).map tripleToOcc).symm)

/-- C5 counterexample: on a document with two gpl findings, two valid
set-iteration orders (identity and reversal, both permutations of the
stored elements) yield different `problematic_licenses` sections while
the `license_statistics` sections coincide: cross-run byte-identity of
the `problematic_licenses` section, including entry order, fails. -/
theorem C5_counterexample :
    (export_detailed_report_ord (fun x => x) "T" "in.json" docTwoGpl).problematic_licenses ≠
      (export_detailed_report_ord List.reverse "T" "in.json" docTwoGpl).problematic_licenses
  ∧ (export_detailed_report_ord (fun x => x) "T" "in.json" docTwoGpl).license_statistics =
      (export_detailed_report_ord List.reverse "T" "in.json" docTwoGpl).license_statistics := by
  decide

/-- C5 witness: the amended theorem applied to the identity and reversal
iteration orders on the two-finding document. -/
theorem C5_witness :
    (export_detailed_report_ord (fun x => x) "T1" "in.json" docTwoGpl).license_statistics =
      (export_detailed_report_ord List.reverse "T2" "in.json" docTwoGpl).license_statistics
  ∧ problemsPerm
      (export_detailed_report_ord (fun x => x) "T1" "in.json" docTwoGpl).problematic_licenses
      (export_detailed_report_ord List.reverse "T2" "in.json" docTwoGpl).problematic_licenses
  ∧ (export_detailed_report_ord (fun x => x) "T1" "in.json" docTwoGpl).problematic_licenses =
      (export_detailed_report_ord (fun x => x) "T2" "in.json" docTwoGpl).problematic_licenses :=
  C5_sections_cross_run (fun x => x) List.reverse (fun l => List.Perm.refl l)
    (fun l => List.reverse_perm l) "T1" "T2" "in.json" docTwoGpl

/-- C7: the recommendations array has one entry per non-empty category
among `gpl`, `agpl` and `unknown`, in exactly that order, with severity
`high`, `critical` and `medium` respectively, and `affected_files` equal
to the length of the problem list of the category. -/
theorem C7_recommendations (p : Problems) :
    (generate_recommendations p).map (fun r => (r.category, r.severity, r.affected_files)) =
      (if p.gpl = [] then [] else [("gpl", "high", p.gpl.length)]) ++
      (if p.agpl = [] then [] else [("agpl", "critical", p.agpl.length)]) ++
      (if p.unknown = [] then [] else [("unknown", "medium", p.unknown.length)]) := by
  unfold generate_recommendations
  split_ifs <;> rfl

/-- C8: when the input path does not exist, the run exits with status 1
after printing an error line that names the missing path, and writes no
output file. -/
theorem C8_missing_input (prog jsonFile now : String) (parsed : Except String ScanDoc) :
    (mainRun [prog, jsonFile] false parsed now).exitCode = 1
  ∧ (mainRun [prog, jsonFile] false parsed now).wrote = none
  ∧ ∃ msg ∈ (mainRun [prog, jsonFile] false parsed now).stdout,
      containsSub msg jsonFile = true := by
  refine ⟨rfl, rfl, "❌ Error: File " ++ jsonFile ++ " does not exist", ?_, ?_⟩
  · exact List.mem_cons_self _ _
  · unfold containsSub
    apply decide_eq_true
    rw [String.data_append, String.data_append]
    exact List.infix_append _ _ _

/-- The report lines produced for a document with an empty files list. -/
theorem report_empty (now jsonFile : String) :
    generate_report_lines now jsonFile ⟨some []⟩ =
      [eq80, "🔍 SCANCODE LICENSE ANALYSIS REPORT", eq80,
       "📁 Analyzed file: " ++ jsonFile, "📅 Generated on: " ++ now, "",
       "📊 BASIC STATISTICS", "   Total files scanned: 0", "",
       "📋 LICENSE SUMMARY", "   Unique licenses detected: 0",
       "   Total license detections: 0", "", "🏆 TOP 10 MOST COMMON LICENSES", "",
       "⚠️  POTENTIAL LICENSE ISSUES", dash40,
       "   ✅ No major license issues detected!", "",
       "💡 RECOMMENDATIONS", dash40, "", eq80] := rfl

/-- C9: for a document whose files list is empty, the report prints the
zero total and the no-issues message, and the export holds empty
statistics, empty problem categories, an empty issue list, an empty
recommendations array and all-zero metadata counts. -/
theorem C9_empty_doc (now jsonFile : String) :
    "   Total files scanned: 0" ∈ generate_report_lines now jsonFile ⟨some []⟩
  ∧ "   ✅ No major license issues detected!" ∈ generate_report_lines now jsonFile ⟨some []⟩
  ∧ export_detailed_report now jsonFile ⟨some []⟩ =
      ⟨⟨jsonFile, now, 0, 0, 0⟩, [], ⟨[], [], [], [], [], []⟩, [], []⟩ := by
  refine ⟨?_, ?_, rfl⟩
  · rw [report_empty]
    exact List.mem_cons_of_mem _ (List.mem_cons_of_mem _ (List.mem_cons_of_mem _
      (List.mem_cons_of_mem _ (List.mem_cons_of_mem _ (List.mem_cons_of_mem _
        (List.mem_cons_of_mem _ (List.mem_cons_self _ _)))))))
  · rw [report_empty]
    exact List.mem_cons_of_mem _ (List.mem_cons_of_mem _ (List.mem_cons_of_mem _
      (List.mem_cons_of_mem _ (List.mem_cons_of_mem _ (List.mem_cons_of_mem _
        (List.mem_cons_of_mem _ (List.mem_cons_of_mem _ (List.mem_cons_of_mem _
          (List.mem_cons_of_mem _ (List.mem_cons_of_mem _ (List.mem_cons_of_mem _
            (List.mem_cons_of_mem _ (List.mem_cons_of_mem _ (List.mem_cons_of_mem _
              (List.mem_cons_of_mem _ (List.mem_cons_of_mem _
                (List.mem_cons_self _ _)))))))))))))))))

/-! ### Claim C6 -/

theorem flatMap_pairs_length {α : Type} (g h : α → String) (l : List α) :
    (l.flatMap (fun a => [g a, h a])).length = 2 * l.length := by
  induction l with
  | nil => rfl
  | cons a t ih =>
    simp only [List.flatMap_cons, List.length_append, ih, List.length_cons, List.length_nil]
    omega

theorem block_length (cat : String) (l : List Occ) (hne : l ≠ []) :
    (categoryBlock cat l).length = 2 + 2 * min 5 l.length + (if 5 < l.length then 1 else 0) := by
  unfold categoryBlock
  rw [if_neg hne]
  rw [List.length_append, List.length_append,
    flatMap_pairs_length (fun issue => "      - " ++ issue.file)
      (fun issue => "        License: " ++ issue.name ++ " (Score: " ++ toString issue.score ++ ")")
      (l.take 5),
    List.length_take]
  split_ifs <;> simp

theorem header_mem_block (cat : String) (l : List Occ) (hne : l ≠ []) :
    ("   🚨 " ++ catDisplay cat ++ " LICENSES (" ++ toString l.length ++ " files):")
      ∈ categoryBlock cat l := by
  unfold categoryBlock
  rw [if_neg hne]
  exact List.mem_cons_of_mem _ (List.mem_cons_self _ _)

theorem trunc_mem_block (cat : String) (l : List Occ) (h5 : 5 < l.length) :
    ("      ... and " ++ toString (l.length - 5) ++ " more files") ∈ categoryBlock cat l := by
  have hne : l ≠ [] := by
    intro h
    rw [h] at h5
    exact absurd h5 (by decide)
  unfold categoryBlock
  rw [if_neg hne, if_pos h5]
  exact List.mem_cons_of_mem _ (List.mem_cons_of_mem _ (List.mem_append_right _
    (List.mem_cons_self _ _)))

theorem mem_print_potential_of_block (p : Problems) (cat : String) (l : List Occ) (x : String)
    (hmem : (cat, l) ∈ problemsList p) (hne : l ≠ []) (hx : x ∈ categoryBlock cat l) :
    x ∈ _print_potential_issues p := by
  have hlen : 0 < l.length := List.length_pos.mpr hne
  have htot : ¬ totalIssues p = 0 := by
    simp only [problemsList, List.mem_cons, List.not_mem_nil, or_false, Prod.mk.injEq] at hmem
    rcases hmem with ⟨rfl, rfl⟩ | ⟨rfl, rfl⟩ | ⟨rfl, rfl⟩ | ⟨rfl, rfl⟩ | ⟨rfl, rfl⟩ | ⟨rfl, rfl⟩ <;>
      (unfold totalIssues; omega)
  unfold _print_potential_issues
  rw [if_neg htot]
  exact List.mem_append_left _ (List.mem_append_right _
    (List.mem_flatMap.mpr ⟨(cat, l), hmem, hx⟩))

/-- The number of distinct affected files among of a category, the
quantity the original claim says is printed. -/
def distinctFilesCount (l : List Occ) : Nat :=
  ((l.map Occ.file).dedup).length

/-- A problem mapping whose `gpl` category holds two entries for the
same file under two different license keys. -/
def dupProblems : Problems :=
  ⟨[], [⟨"a.c", "gpl-2.0", 100⟩, ⟨"a.c", "gpl-3.0", 100⟩], [], [], [], []⟩

/-- C6 counterexample: the printed per-category count is the number of
entries of the list, not the number of distinct affected files: with two
entries for one file, the header printed says 2 while only 1 distinct
file is affected, and no header with count 1 is printed. -/
theorem C6_counterexample :
    "   🚨 GPL LICENSES (2 files):" ∈ _print_potential_issues dupProblems
  ∧ "   🚨 GPL LICENSES (1 files):" ∉ _print_potential_issues dupProblems
  ∧ distinctFilesCount dupProblems.gpl = 1
  ∧ dupProblems.gpl.length = 2 := by
  decide

/-- C6 (amended): for each non-empty category the header printed carries
the number of entries of the problem list of the category (which can
exceed the number of distinct affected files), the example block holds
at most five example entries (two lines each), and a truncation note is
printed when there are more than five entries. -/
theorem C6_category_listing (p : Problems) (cat : String) (l : List Occ)
    (hmem : (cat, l) ∈ problemsList p) (hne : l ≠ []) :
    ("   🚨 " ++ catDisplay cat ++ " LICENSES (" ++ toString l.length ++ " files):")
        ∈ _print_potential_issues p
  ∧ (categoryBlock cat l).length = 2 + 2 * min 5 l.length + (if 5 < l.length then 1 else 0)
  ∧ (5 < l.length →
      ("      ... and " ++ toString (l.length - 5) ++ " more files")
        ∈ _print_potential_issues p) := by
  refine ⟨?_, block_length cat l hne, ?_⟩
  · exact mem_print_potential_of_block p cat l _ hmem hne (header_mem_block cat l hne)
  · intro h5
    exact mem_print_potential_of_block p cat l _ hmem hne (trunc_mem_block cat l h5)

/-- C6 witness: the amended theorem applied to the `gpl` category of the
two-entry problem mapping. -/
theorem C6_witness :
    ("   🚨 " ++ catDisplay "gpl" ++ " LICENSES (" ++
        toString dupProblems.gpl.length ++ " files):")
        ∈ _print_potential_issues dupProblems
  ∧ (categoryBlock "gpl" dupProblems.gpl).length =
      2 + 2 * min 5 dupProblems.gpl.length +
        (if 5 < dupProblems.gpl.length then 1 else 0)
  ∧ (5 < dupProblems.gpl.length →
      ("      ... and " ++ toString (dupProblems.gpl.length - 5) ++ " more files")
        ∈ _print_potential_issues dupProblems) :=
  C6_category_listing dupProblems "gpl" dupProblems.gpl (by decide) (by decide)

end ScanCode
